import Mathlib

/-!
Shallow embedding of the product-enrichment pipeline of
`src/integrated_production_agent.py` (class `IntegratedProductionAgent`).

Modelling conventions:
* Python `float`/`Decimal` arithmetic is modelled with `ℚ`.  All confidence
  values occurring in the program are small sums of 0.2/0.3/0.7/0.95-style
  constants, far from any comparison boundary, so exact rationals produce the
  same control flow as IEEE doubles.  `decimal.Decimal` arithmetic with
  `ROUND_HALF_UP` quantisation to two places is modelled exactly
  (`roundHalfUp2`); the 28-significant-digit default context of `decimal`
  never affects a two-place quantisation for inputs of realistic size because
  the exactly computed quotient is never at a two-decimal tie (see
  `roundHalfUp2`).
* Python strings are Lean `String`s (`len` = number of code points in both).
  `str.lower`/`str.upper` are modelled with ASCII case mapping
  (`Char.toLower`/`Char.toUpper`); all case-mapped program constants are
  ASCII.  `str.strip()` is `pyStrip` (Unicode-whitespace trimming; the
  program's strings only carry ASCII whitespace at their ends).
* Injected capabilities: the search tool is `Option (String → Except Unit
  (List SearchResult))` (`none` = not configured, `Except.error` = the tool
  raised; the agent catches the exception per query).  The browser tool is
  `Option (String → String → Except Unit String)` likewise.
-/

/-- Python's substring test `pat in s`, on char lists (`'' in s` is `True`). -/
def listContains (pat : List Char) : List Char → Bool
  | [] => pat.isEmpty
  | c :: rest => List.isPrefixOf pat (c :: rest) || listContains pat rest

/-- Python `pat in s` for strings. -/
def strContains (s pat : String) : Bool :=
  listContains pat.toList s.toList

/-- Python `s.startswith(pre)`. -/
def strStarts (s pre : String) : Bool :=
  List.isPrefixOf pre.toList s.toList

/-- Python `s.lower()` (ASCII case mapping; see file header). -/
def pyLower (s : String) : String :=
  (s.toList.map Char.toLower).asString

/-- Python `s.upper()` (ASCII case mapping). -/
def pyUpper (s : String) : String :=
  (s.toList.map Char.toUpper).asString

/-- Strip leading and trailing whitespace from a char list (Python `strip`). -/
def listStrip (l : List Char) : List Char :=
  ((l.dropWhile Char.isWhitespace).reverse.dropWhile Char.isWhitespace).reverse

/-- Python `s.strip()`. -/
def pyStrip (s : String) : String :=
  (listStrip s.toList).asString

/-- Python `re.sub(r'\s+', ' ', s)`: collapse every whitespace run to one space. -/
def collapseWS : List Char → List Char
  | [] => []
  | [c] => if c.isWhitespace then [' '] else [c]
  | c :: d :: rest =>
    if c.isWhitespace && d.isWhitespace then collapseWS (d :: rest)
    else (if c.isWhitespace then ' ' else c) :: collapseWS (d :: rest)

/-- `re.search(r'(\d+)\s*mp|(\d+)\s*megapixel', text)` (line 223): leftmost
position at which a digit run, optionally followed by whitespace, is followed
by the literal `mp` or `megapixel`; returns the digit run.  (Greedy `\d+`/`\s*`
cannot backtrack usefully here: a shorter digit or space run leaves a digit or
space where `m` is required.) -/
def mpScan : List Char → Option String
  | [] => none
  | c :: rest =>
    if c.isDigit then
      let ds := List.takeWhile Char.isDigit (c :: rest)
      let after := (List.dropWhile Char.isDigit (c :: rest)).dropWhile Char.isWhitespace
      if List.isPrefixOf "mp".toList after || List.isPrefixOf "megapixel".toList after then
        some ds.asString
      else mpScan rest
    else mpScan rest

/-- Addition on `ℚ` through `Rat.divInt` (definitionally evaluable; equal to
`+` by `qAdd_eq`). -/
def qAdd (a b : ℚ) : ℚ :=
  Rat.divInt (a.num * b.den + b.num * a.den) (a.den * b.den)

/-- Multiplication on `ℚ` through `Rat.divInt` (equal to `*` by `qMul_eq`). -/
def qMul (a b : ℚ) : ℚ :=
  Rat.divInt (a.num * b.num) (a.den * b.den)

/-- Reciprocal on `ℚ` through `Rat.divInt` (equal to `⁻¹` by `qInv_eq`). -/
def qInv (a : ℚ) : ℚ :=
  Rat.divInt a.den a.num

/-- Division on `ℚ` through `Rat.divInt` (equal to `/` by `qDiv_eq`). -/
def qDiv (a b : ℚ) : ℚ :=
  qMul a (qInv b)

/-- The two-decimal literal `n/100 : ℚ` (e.g. `qc 30` is the float literal
`0.3`). -/
def qc (n : ℤ) : ℚ :=
  Rat.divInt n 100

/-- `Decimal.quantize(Decimal('0.01'), rounding=ROUND_HALF_UP)`: round to two
decimal places, ties away from zero.  For `0 ≤ q` the result is
`⌊q × 100 + 1/2⌋ / 100` (lemma `roundHalfUp2_floor`), written with
`Int.fdiv` on numerator and denominator so that it evaluates. -/
def roundHalfUp2 (q : ℚ) : ℚ :=
  if 0 ≤ q then Rat.divInt (Int.fdiv (200 * q.num + q.den) (2 * q.den)) 100
  else -(Rat.divInt (Int.fdiv (200 * -q.num + q.den) (2 * q.den)) 100)

/-- The argument of `calculate_prices`: either a numeric purchase price (the
exact decimal value of `Decimal(str(purchase_price))`) or a value on which the
`Decimal` constructor / arithmetic raises (non-numeric, NaN). -/
inductive PriceInput
  | num (q : ℚ)
  | invalid
deriving DecidableEq

/-- `calculate_prices` (lines 431-447).  Note the source quantises
`cost_price` only after `selling_price = cost_price / Decimal('0.65')` has
been computed, so the selling price is derived from the unrounded cost.  The
`except` branch (line 445) returns the zeroed dict. -/
def calculate_prices : PriceInput → ℚ × ℚ
  | .num q =>
    let cost_raw := qMul q (qc 116)
    let selling_raw := qDiv cost_raw (qc 65)
    (roundHalfUp2 cost_raw, roundHalfUp2 selling_raw)
  | .invalid => (0, 0)

/-- Modelled from the spec's words (§4.1 / §8), for comparison with
`calculate_prices`: `costPrice = round(purchasePrice × 1.16, 2, half-up)` and
`sellingPrice = round(costPrice / 0.65, 2, half-up)`, i.e. the selling price
derived from the *already-rounded* cost price. -/
def spec_calculate_prices (q : ℚ) : ℚ × ℚ :=
  let c := roundHalfUp2 (qMul q (qc 116))
  (c, roundHalfUp2 (qDiv c (qc 65)))

/-- One entry of a search tool's result list (`{url, title, snippet}`). -/
structure SearchResult where
  url : String
  title : String
  snippet : String
deriving DecidableEq

/-- The `ProductInfo` dataclass (lines 25-42), with its field defaults. -/
structure ProductInfo where
  sku : String
  name : String := ""
  category : String := ""
  description : String := ""
  specifications : String := ""
  accessories : List String := []
  filters : List String := []
  source_url : String := ""
  confidence_score : ℚ := 0
deriving DecidableEq

/-- The sites of `self.priority_sites` (lines 58-63). -/
def priority_sites : List String :=
  ["hikvision.com", "ubitech.fr", "tevah-systems.com", "adi-global.com"]

/-- The query list built in `search_product_info` (lines 86-90). -/
def search_queries (sku : String) : List String :=
  [sku ++ " hikvision specifications",
   sku ++ " camera surveillance",
   sku ++ " datasheet technical"]

/-- First entry of the simulated database (`'hikvision'`, lines 164-170). -/
def hikResult : SearchResult :=
  { url := "https://www.hikvision.com/en/products/ip-cameras/"
    title := "IP Cameras - HIKVISION"
    snippet := "Professional IP cameras with advanced features for surveillance" }

/-- Second entry of the simulated database (`'camera'`, lines 171-177). -/
def ubiResult : SearchResult :=
  { url := "https://www.ubitech.fr/cameras-ip"
    title := "Caméras IP professionnelles"
    snippet := "Large gamme de caméras de surveillance IP haute définition" }

/-- `_simulate_search` (lines 160-185): the dict is iterated in insertion
order (`'hikvision'` then `'camera'`); the first keyword contained in the
lowered query wins. -/
def simulate_search (query : String) : List SearchResult :=
  if strContains (pyLower query) "hikvision" then [hikResult]
  else if strContains (pyLower query) "camera" then [ubiResult]
  else []

/-- The product-name cleaning of `_extract_info_from_snippet` (lines 194-197):
`re.sub(r'[|•\-–—].*$', '', title).strip()`, whitespace-run collapse, first
100 characters.  (The regex deletes everything from the first separator
character on; the embedding assumes the title holds no newline, true of every
title this program sees.) -/
def cleanTitleName (title : String) : String :=
  let cut := title.toList.takeWhile (fun c => ! (['|', '•', '-', '–', '—'].contains c))
  ((collapseWS (listStrip cut)).asString).take 100

/-- The specification-keyword detection of `_extract_info_from_snippet`
(lines 221-241), producing the `specs` list in source order. -/
def specKeywordSpecs (text : String) : List String :=
  (if strContains text "mp" || strContains text "megapixel" then
    match mpScan text.toList with
    | some ds => ["Résolution " ++ ds ++ "MP"]
    | none => []
  else [])
  ++ (if strContains text "4k" || strContains text "uhd" then ["Résolution 4K"] else [])
  ++ (if ["night", "nocturne", "infrared", "ir"].any (fun w => strContains text w) then
        ["Vision nocturne"] else [])
  ++ (if ["wifi", "wireless", "sans fil"].any (fun w => strContains text w) then
        ["WiFi"] else [])
  ++ (if ["poe", "ethernet"].any (fun w => strContains text w) then ["PoE"] else [])
  ++ (if ["ip67", "ip66", "waterproof", "étanche"].any (fun w => strContains text w) then
        ["Résistant intempéries"] else [])

/-- `_extract_info_from_snippet` (lines 187-281). -/
def extract_info_from_snippet (sku title snippet url : String) : ProductInfo :=
  let name :=
    if strContains (pyLower title) (pyLower sku) then cleanTitleName title
    else "Produit HIKVISION " ++ sku
  let text := pyLower (title ++ " " ++ snippet)
  let category :=
    if ["camera", "caméra", "cam"].any (fun w => strContains text w) then
      if ["ip", "network", "réseau"].any (fun w => strContains text w) then "Caméra IP"
      else if ["turbo", "hd", "analogique"].any (fun w => strContains text w) then
        "Caméra Analogique"
      else "Caméra"
    else if ["nvr", "enregistreur"].any (fun w => strContains text w) then "Enregistreur"
    else if ["adaptateur", "alimentation", "power"].any (fun w => strContains text w) then
      "Accessoire"
    else "Sécurité"
  let description :=
    if snippet ≠ "" then snippet.take 200
    else "Produit de sécurité professionnel " ++ sku
  let specs := specKeywordSpecs text
  let specifications :=
    if specs.isEmpty then "Spécifications techniques avancées"
    else String.intercalate ", " specs
  let accessories :=
    if category = "Caméra IP" then
      ["Support de montage", "Câble réseau", "Adaptateur PoE", "Guide d\x27installation"]
    else if category = "Caméra Analogique" then
      ["Support de montage", "Câble coaxial", "Adaptateur secteur", "Manuel technique"]
    else if category = "Accessoire" then
      ["Documentation technique", "Garantie constructeur"]
    else ["Manuel d\x27utilisation", "Kit de montage", "Support technique"]
  let filters :=
    [category, "HIKVISION", "Sécurité", "Professionnel"]
    ++ (if strContains text "ip" then ["IP"] else [])
    ++ (if strContains text "hd" || strContains text "4k" then ["Haute Définition"] else [])
    ++ (if strContains text "extérieur" || strContains text "outdoor"
           || strContains text "ip67" then ["Extérieur"] else [])
    ++ (if strContains text "intérieur" || strContains text "indoor" then
          ["Intérieur"] else [])
    ++ (if strContains text "wifi" then ["Sans fil"] else [])
  let score : ℚ :=
    qAdd (qAdd (qAdd
      (if name ≠ "" ∧ strContains (pyLower name) (pyLower sku) then qc 30 else 0)
      (if 50 < description.length then qc 20 else 0))
      (if 0 < specs.length then qc 20 else 0))
      (if priority_sites.any (fun site => strContains url site) then qc 30 else 0)
  { sku := sku, name := name, category := category, description := description,
    specifications := specifications, accessories := accessories, filters := filters,
    source_url := url, confidence_score := min score (qc 100) }

/-- `_generate_fallback_info` (lines 383-429): the SKU-prefix rule table, with
fixed confidence 0.7.  Note line 412 tests *containment* of `ADS`/`AJ`/`CPK`
in the uppercased SKU, not a prefix. -/
def generate_fallback_info (sku : String) : ProductInfo :=
  let skuU := pyUpper sku
  if strStarts skuU "DS-2CD" then
    { sku := sku, name := "Caméra IP HIKVISION " ++ sku, category := "Caméra IP",
      description := "Caméra de surveillance IP haute performance " ++ sku
        ++ " avec technologie avancée HIKVISION",
      specifications := "Résolution haute définition, Vision nocturne infrarouge, PoE, Résistant intempéries IP67",
      accessories := ["Support de montage", "Câble réseau", "Adaptateur PoE", "Guide d\x27installation"],
      filters := ["Caméra", "IP", "HIKVISION", "Surveillance", "Extérieur", "Vision nocturne"],
      confidence_score := qc 70 }
  else if strStarts skuU "DS-2CE" then
    { sku := sku, name := "Caméra Turbo HD HIKVISION " ++ sku, category := "Caméra Analogique",
      description := "Caméra de surveillance Turbo HD " ++ sku
        ++ " avec technologie ColorVu pour images couleur 24h/24",
      specifications := "Résolution 4K, Vision nocturne ColorVu, Résistant intempéries IP67, Signal analogique HD",
      accessories := ["Support de montage", "Câble coaxial", "Adaptateur secteur", "Manuel technique"],
      filters := ["Caméra", "Turbo HD", "HIKVISION", "Analogique", "4K", "ColorVu"],
      confidence_score := qc 70 }
  else if strStarts skuU "DS-1" then
    { sku := sku, name := "Accessoire HIKVISION " ++ sku, category := "Accessoire",
      description := "Accessoire de sécurité HIKVISION " ++ sku
        ++ " pour systèmes de surveillance professionnels",
      specifications := "Compatible systèmes HIKVISION, Installation facile, Qualité professionnelle",
      accessories := ["Documentation technique", "Kit de fixation"],
      filters := ["Accessoire", "HIKVISION", "Professionnel"],
      confidence_score := qc 70 }
  else if ["ADS", "AJ", "CPK"].any (fun p => strContains skuU p) then
    { sku := sku, name := "Composant HIKVISION " ++ sku, category := "Composant",
      description := "Composant électronique HIKVISION " ++ sku
        ++ " pour systèmes de sécurité",
      specifications := "Composant certifié HIKVISION, Haute fiabilité, Installation professionnelle",
      accessories := ["Documentation technique", "Garantie constructeur"],
      filters := ["Composant", "HIKVISION", "Électronique"],
      confidence_score := qc 70 }
  else
    { sku := sku, name := "Produit HIKVISION " ++ sku, category := "Sécurité",
      description := "Équipement de sécurité professionnel HIKVISION " ++ sku,
      specifications := "Technologie HIKVISION avancée, Haute fiabilité, Support technique inclus",
      accessories := ["Manuel d\x27utilisation", "Support technique", "Garantie"],
      filters := ["HIKVISION", "Sécurité", "Professionnel"],
      confidence_score := qc 70 }

/-- The priority bonus of `search_product_info` (lines 114-118): 0.3 when a
priority site occurs in the lowered result URL. -/
def priorityBonus (url : String) : ℚ :=
  if priority_sites.any (fun site => strContains (pyLower url) site) then qc 30 else 0

/-- The candidate built from one search result (lines 120-122): the snippet
extraction with the priority bonus added onto its confidence score. -/
def bonusCand (sku : String) (r : SearchResult) : ProductInfo :=
  let info := extract_info_from_snippet sku r.title r.snippet r.url
  { info with confidence_score := qAdd info.confidence_score (priorityBonus r.url) }

/-- The outcome of the regex-based field extraction of
`_get_detailed_info_from_url` (lines 299-354), abstracted as data: `pageName`
is `info.name` after the title-pattern loop (`""` when no pattern matched or
the match stripped to empty), `pageSpecs` the joined spec-pattern matches
(`""` when none matched), `pageDesc` the description-pattern match (`""` when
none matched).  Every claim in scope is independent of these regex values; the
surrounding control flow, defaults, category classification and the fixed
confidence 0.95 (line 375) are embedded from the source. -/
structure RegexOracle where
  pageName : String
  pageSpecs : String
  pageDesc : String

/-- `_get_detailed_info_from_url` (lines 283-381), parameterised by the
browser tool and by the regex-extraction oracle.  Returns `none` when the
browser tool is unset, raises (caught, line 379) or yields empty content. -/
def get_detailed_info_from_url (browser_tool : Option (String → String → Except Unit String))
    (oracle : String → String → RegexOracle) (url sku : String) : Option ProductInfo :=
  match browser_tool with
  | none => none
  | some bt =>
    match bt url ("Informations techniques et spécifications du produit " ++ sku) with
    | .error _ => none
    | .ok page =>
      if page = "" then none
      else
        let rx := oracle page sku
        let name := if rx.pageName = "" then "Produit HIKVISION " ++ sku else rx.pageName
        let specifications :=
          if rx.pageSpecs = "" then "Spécifications techniques avancées" else rx.pageSpecs
        let description :=
          if rx.pageDesc = "" then "Produit de sécurité professionnel HIKVISION " ++ sku
          else rx.pageDesc
        let cl := pyLower page
        let category :=
          if strContains cl "camera" || strContains cl "caméra" then
            if strContains cl "ip" then "Caméra IP"
            else if strContains cl "turbo" || strContains cl "hd" then "Caméra Analogique"
            else "Caméra"
          else if strContains cl "nvr" then "Enregistreur"
          else "Sécurité"
        some { sku := sku, name := name, category := category, description := description,
               specifications := specifications,
               accessories := ["Support de montage", "Documentation technique",
                               "Garantie constructeur", "Support HIKVISION"],
               filters := [category, "HIKVISION", "Professionnel", "Haute qualité"],
               source_url := url, confidence_score := qc 95 }

/-- One search invocation (lines 97-102): the injected tool when configured
(it may raise), the simulated search otherwise. -/
def runSearch (search_tool : Option (String → Except Unit (List SearchResult)))
    (query : String) : Except Unit (List SearchResult) :=
  match search_tool with
  | some f => f query
  | none => .ok (simulate_search query)

/-- Processing of one search result inside the query loop (lines 108-137):
build the bonus-adjusted candidate, keep it when it beats the best score, and
when the result comes from a priority site with confidence above 0.7 attempt
the detailed extraction, which supersedes the best candidate when stronger. -/
def processResult (det : String → String → Option ProductInfo) (sku : String)
    (b : ProductInfo × ℚ) (r : SearchResult) : ProductInfo × ℚ :=
  let c := bonusCand sku r
  let b1 := if b.2 < c.confidence_score then (c, c.confidence_score) else b
  if 0 < priorityBonus r.url ∧ qc 70 < c.confidence_score then
    match det r.url sku with
    | some d => if b1.2 < d.confidence_score then (d, d.confidence_score) else b1
    | none => b1
  else b1

/-- The query loop of `search_product_info` (lines 95-145): per query, run the
search (a raising tool is caught and the query skipped, line 143), fold the
first three results, and stop early once the best score exceeds 0.8
(line 140). -/
def processQueries (search_tool : Option (String → Except Unit (List SearchResult)))
    (det : String → String → Option ProductInfo) (sku : String) :
    List String → ProductInfo × ℚ → ProductInfo × ℚ
  | [], b => b
  | q :: qs, b =>
    let b' :=
      match runSearch search_tool q with
      | .error _ => b
      | .ok results => (results.take 3).foldl (processResult det sku) b
    if qc 80 < b'.2 then b' else processQueries search_tool det sku qs b'

/-- `search_product_info` (lines 74-158) on a cache miss: the query loop
starting from the empty candidate `ProductInfo(sku)` with best score 0.0,
falling back to `_generate_fallback_info` when the best score stays below 0.5
(line 148).  (The per-SKU cache, lines 78-80 and 152, returns a record
previously produced by this same function; the detailed extraction is the
`det` parameter, instantiated with `get_detailed_info_from_url`.) -/
def search_product_info (search_tool : Option (String → Except Unit (List SearchResult)))
    (det : String → String → Option ProductInfo) (sku : String) : ProductInfo :=
  let b := processQueries search_tool det sku (search_queries sku) ({ sku := sku }, 0)
  if b.2 < qc 50 then generate_fallback_info sku else b.1

/-- Renders a quantised two-decimal `ℚ` the way Python's `f"{x:.2f}"` renders
the corresponding float (every price reaching this formatter has been
quantised to two places by `calculate_prices`). -/
def formatQ2 (q : ℚ) : String :=
  let c : ℤ := Int.fdiv (100 * q.num) q.den
  let render := fun (n : ℕ) =>
    toString (n / 100) ++ "." ++ (if n % 100 < 10 then "0" ++ toString (n % 100) else toString (n % 100))
  if c < 0 then "-" ++ render (-c).toNat else render c.toNat

/-- The fixed tail of the e-commerce template (lines 483-495): the six
usage-scenario bullets and the trust/support boilerplate, including the
template's trailing newline and indentation (removed by `.strip()`). -/
def ecomTail : String :=
  "\n\nScénarios d\x27utilisation:\n• Surveillance résidentielle - Protection de votre domicile 24h/24 avec détection intelligente\n• Sécurité commerciale - Surveillance de locaux professionnels, entrepôts et zones sensibles\n• Monitoring industriel - Contrôle de sites de production, chaînes logistiques et équipements\n• Surveillance périmétrique - Protection d\x27espaces extérieurs, parkings et accès sécurisés\n• Contrôle d\x27accès - Gestion des entrées et sorties avec reconnaissance faciale avancée\n• Télésurveillance - Monitoring à distance avec alertes temps réel et enregistrement cloud\n\nCompatible avec les systèmes HIKVISION et solutions de sécurité tierces.\nInstallation et configuration par nos techniciens certifiés HIKVISION.\nSupport technique 24/7 et garantie constructeur inclus.\nFormation utilisateur et maintenance préventive disponibles.\n        "

/-- The three artifacts returned by `generate_descriptions`. -/
structure Descriptions where
  management_label : String
  quote_description : String
  ecommerce_description : String
deriving DecidableEq

/-- `generate_descriptions` (lines 449-501): the management label
`"{sku} - {name}"` and the two stripped multi-line templates. -/
def generate_descriptions (sku : String) (info : ProductInfo) (prices : ℚ × ℚ) :
    Descriptions :=
  let accJoin := String.intercalate ", " info.accessories
  { management_label := sku ++ " - " ++ info.name
    quote_description := pyStrip
      ("\n" ++ info.name ++ "\n\nRéférence: " ++ sku ++ "\nCatégorie: " ++ info.category
        ++ "\n\nCaractéristiques techniques:\n" ++ info.specifications
        ++ "\n\nDescription:\n" ++ info.description
        ++ "\n\nAccessoires inclus: " ++ accJoin
        ++ "\n\nPrix de vente: " ++ formatQ2 prices.2 ++ "€ HT\n        ")
    ecommerce_description := pyStrip
      ("\n" ++ info.description ++ "\n\nSpécifications techniques:\n" ++ info.specifications
        ++ "\n\nAccessoires inclus:\n" ++ accJoin ++ ecomTail) }

/-- Name band of `evaluate_quality` (lines 507-513, 20 points max). -/
def namePoints (sku name : String) : ℚ :=
  if 15 < name.length ∧ strContains name sku then 20
  else if 10 < name.length then 15
  else if 5 < name.length then 10
  else 0

/-- Description band (lines 515-523, 20 points max). -/
def descPoints (d : String) : ℚ :=
  if 80 < d.length then 20
  else if 50 < d.length then 15
  else if 30 < d.length then 12
  else if 15 < d.length then 8
  else 0

/-- Specifications band (lines 525-533, 20 points max). -/
def specPoints (s : String) : ℚ :=
  if 40 < s.length then 20
  else if 25 < s.length then 15
  else if 15 < s.length then 12
  else if 5 < s.length then 8
  else 0

/-- Accessories band (lines 535-541, 15 points max). -/
def accPoints (n : ℕ) : ℚ :=
  if 3 ≤ n then 15
  else if 2 ≤ n then 12
  else if 1 ≤ n then 8
  else 0

/-- Management-label band (lines 543-547, 10 points max). -/
def labelPoints (l : String) : ℚ :=
  if 20 < l.length then 10
  else if 10 < l.length then 7
  else 0

/-- E-commerce-description band (lines 549-555, 15 points max). -/
def ecomPoints (d : String) : ℚ :=
  if 400 < d.length then 15
  else if 250 < d.length then 12
  else if 150 < d.length then 8
  else 0

/-- `evaluate_quality` (lines 503-560): sum of the six bands plus the
confidence bonus `confidence_score * 10`, capped at 100. -/
def evaluate_quality (sku : String) (info : ProductInfo) (descs : Descriptions) : ℚ :=
  min (qAdd (qAdd (qAdd (qAdd (qAdd (qAdd
    (namePoints sku info.name) (descPoints info.description))
    (specPoints info.specifications)) (accPoints info.accessories.length))
    (labelPoints descs.management_label)) (ecomPoints descs.ecommerce_description))
    (qMul info.confidence_score 10)) 100

/-- The validation gate of `process_excel_file` (line 611):
`quality_score >= 95.0`. -/
def validates (q : ℚ) : Bool :=
  decide (95 ≤ q)

/-- A price cell of the input spreadsheet: absent (NaN in pandas), numeric, or
a non-numeric value (which `pd.to_numeric(errors='coerce')` turns into NaN). -/
inductive PriceCell
  | missing
  | num (q : ℚ)
  | text (s : String)
deriving DecidableEq

/-- One raw input row after `pd.read_excel` and the price-column rename:
`sku = none` models a NaN SKU cell, `some s` a present cell rendered by
`str()`. -/
structure RawRow where
  sku : Option String
  price : PriceCell
deriving DecidableEq

/-- The row-validation phase of `process_excel_file` (lines 577-579):
`dropna(subset=['SKU', "Prix d'achat"])`, `to_numeric(errors='coerce')`,
`dropna` again.  A row survives iff the SKU cell is present and the price
cell holds a numeric value. -/
def parseRow (r : RawRow) : Option (String × ℚ) :=
  match r.sku, r.price with
  | some s, .num q => some (s, q)
  | _, _ => none

/-- One row of the per-product result dicts built at lines 621-633. -/
structure RowResult where
  sku : String
  management_label : String
  quote_description : String
  ecommerce_description : String
  purchase_price : ℚ
  cost_price : ℚ
  selling_price : ℚ
  accessories : String
  filters : String
  quality_score : ℚ
  statut : String
deriving DecidableEq

/-- The per-row body of the processing loop (lines 591-643): strip the SKU,
resolve, price, synthesize, score, and set `Statut` from the 95-point gate. -/
def process_row (search_tool : Option (String → Except Unit (List SearchResult)))
    (det : String → String → Option ProductInfo) (p : String × ℚ) : RowResult :=
  let sku := pyStrip p.1
  let info := search_product_info search_tool det sku
  let prices := calculate_prices (PriceInput.num p.2)
  let descs := generate_descriptions sku info prices
  let q := evaluate_quality sku info descs
  { sku := sku
    management_label := descs.management_label
    quote_description := descs.quote_description
    ecommerce_description := descs.ecommerce_description
    purchase_price := p.2
    cost_price := prices.1
    selling_price := prices.2
    accessories := String.intercalate ", " info.accessories
    filters := String.intercalate ", " info.filters
    quality_score := q
    statut := if validates q then "Validé" else "Rejeté" }

/-- One iteration of the loop's bookkeeping (lines 613-636): append the row's
result, bump `valid_count` when validated, bump `processed_count`. -/
def batchStep (search_tool : Option (String → Except Unit (List SearchResult)))
    (det : String → String → Option ProductInfo)
    (acc : List RowResult × ℕ × ℕ) (p : String × ℚ) : List RowResult × ℕ × ℕ :=
  let r := process_row search_tool det p
  (acc.1 ++ [r], acc.2.1 + 1, acc.2.2 + (if validates r.quality_score then 1 else 0))

/-- The summary dict returned by `process_excel_file` (lines 685-692).
`artifact = none` models the case where no output file is written at all
(lines 653-678: the `pd.ExcelWriter` block runs only under
`if validated_results:`); `some rows` models the written spreadsheet's data
rows in order. -/
structure BatchOutcome where
  success : Bool
  artifact : Option (List RowResult)
  processed : ℕ
  valid : ℕ
  validation_rate : ℚ
deriving DecidableEq

/-- `process_excel_file` (lines 562-699) on the success path, starting from
the raw rows of the parsed spreadsheet: validate rows (`parseRow`), run the
per-row loop, filter the validated results, write the output only when that
filter is non-empty, and compute
`validation_rate = valid_count / max(1, processed_count) * 100`. -/
def process_excel_file (search_tool : Option (String → Except Unit (List SearchResult)))
    (det : String → String → Option ProductInfo) (rows : List RawRow) : BatchOutcome :=
  let parsed := rows.filterMap parseRow
  let acc := parsed.foldl (batchStep search_tool det) ([], 0, 0)
  let validated_results := acc.1.filter (fun r => r.statut = "Validé")
  { success := true
    artifact := if validated_results.isEmpty then none else some validated_results
    processed := acc.2.1
    valid := acc.2.2
    validation_rate := qMul (Rat.divInt (acc.2.2 : ℤ) ((max 1 acc.2.1 : ℕ) : ℤ)) 100 }

/-- The per-row results in processing order, for stating pipeline claims. -/
def pipelineResults (search_tool : Option (String → Except Unit (List SearchResult)))
    (det : String → String → Option ProductInfo) (rows : List RawRow) : List RowResult :=
  (rows.filterMap parseRow).map (process_row search_tool det)

/-- A trivial regex oracle (its values never matter when the browser tool is
absent). -/
def noOracle : String → String → RegexOracle :=
  fun _ _ => ⟨"", "", ""⟩

/-- The detailed-extraction function as configured in the claims' scenarios:
no browser tool injected. -/
def detNoBrowser : String → String → Option ProductInfo :=
  get_detailed_info_from_url none noOracle

/-- The record the agent resolves for SKU `DS-2CD1234` with no tools
configured (the C2 scenario). -/
def ds2cdRecord : ProductInfo :=
  search_product_info none detNoBrowser "DS-2CD1234"

/-- An injected search tool whose single result carries a title beginning
with a separator character, so that the title-cleaning regex erases the whole
name. -/
def emptyTitleTool : String → Except Unit (List SearchResult) :=
  fun _ => .ok [{ url := "https://www.hikvision.com/x", title := "-X",
                  snippet := "professional ip camera equipment with many advanced features" }]

/-- A single-row batch whose SKU `cam` resolves to the short simulated name
`IP Cameras`, scoring 88 < 95: the row is processed but rejected. -/
def camRows : List RawRow :=
  [{ sku := some "cam", price := .num 10 }]

/-- A single-row batch whose SKU `DS-2CD1234` scores 100 ≥ 95: the row is
processed and validated. -/
def dsRows : List RawRow :=
  [{ sku := some "DS-2CD1234", price := .num 100 }]

theorem qAdd_eq (a b : ℚ) : qAdd a b = a + b := by
  rw [qAdd, Rat.add_def', Rat.mkRat_eq_divInt]
  push_cast
  ring_nf

theorem qMul_eq (a b : ℚ) : qMul a b = a * b := by
  rw [qMul]
  conv_rhs => rw [← Rat.divInt_self a, ← Rat.divInt_self b]
  rw [Rat.divInt_mul_divInt _ _ (by exact_mod_cast a.den_nz) (by exact_mod_cast b.den_nz)]

theorem qInv_eq (a : ℚ) : qInv a = a⁻¹ := by
  rw [qInv]
  conv_rhs => rw [← Rat.divInt_self a]
  rw [Rat.inv_divInt']

theorem qDiv_eq (a b : ℚ) : qDiv a b = a / b := by
  rw [qDiv, qMul_eq, qInv_eq, div_eq_mul_inv]

theorem qc_eq (n : ℤ) : qc n = (n : ℚ) / 100 := by
  rw [qc, Rat.divInt_eq_div]
  norm_num

theorem roundHalfUp2_floor (q : ℚ) (h : 0 ≤ q) :
    roundHalfUp2 q = ((⌊q * 100 + 1 / 2⌋ : ℤ) : ℚ) / 100 := by
  rw [roundHalfUp2, if_pos h, Rat.divInt_eq_div]
  have hden : ((q.den : ℚ)) ≠ 0 := by exact_mod_cast q.den_nz
  have key : q * 100 + 1 / 2 = ((200 * q.num + q.den : ℤ) : ℚ) / ((2 * q.den : ℕ) : ℚ) := by
    conv_lhs => rw [← Rat.num_div_den q]
    push_cast
    field_simp
    ring
  rw [key, Rat.floor_intCast_div_natCast, Int.fdiv_eq_ediv _ (by positivity)]
  norm_num

theorem roundHalfUp2_nonneg (q : ℚ) (h : 0 ≤ q) : 0 ≤ roundHalfUp2 q := by
  rw [roundHalfUp2_floor q h]
  have h1 : (0 : ℚ) ≤ q * 100 + 1 / 2 := by positivity
  have h2 : (0 : ℤ) ≤ ⌊q * 100 + 1 / 2⌋ := Int.le_floor.mpr (by exact_mod_cast h1)
  positivity

theorem roundHalfUp2_nonpos (q : ℚ) (h : q ≤ 0) : roundHalfUp2 q ≤ 0 := by
  rcases le_or_lt 0 q with h0 | h0
  · have hq : q = 0 := le_antisymm h h0
    subst hq
    exact le_of_eq (by decide)
  · rw [roundHalfUp2, if_neg (not_le.mpr h0)]
    have h1 : (0 : ℤ) ≤ 200 * -q.num + q.den := by
      have hn : q.num ≤ 0 := by exact_mod_cast (Rat.num_nonpos).mpr h0.le
      have hd : (0 : ℤ) ≤ (q.den : ℤ) := by positivity
      nlinarith
    have h2 : (0 : ℤ) ≤ Int.fdiv (200 * -q.num + q.den) (2 * q.den) :=
      Int.fdiv_nonneg h1 (by positivity)
    have h3 : (0 : ℚ) ≤ Rat.divInt (Int.fdiv (200 * -q.num + q.den) (2 * q.den)) 100 := by
      rw [Rat.divInt_eq_div]
      positivity
    linarith

theorem string_eq_empty_iff (s : String) : s = "" ↔ s.length = 0 := by
  cases s with
  | mk data =>
    simp [String.length, String.ext_iff]

theorem append_ne_empty_left (s t : String) (h : s ≠ "") : s ++ t ≠ "" := by
  intro hc
  have hlen : (s ++ t).length = 0 := by rw [hc]; rfl
  rw [String.length_append] at hlen
  exact h ((string_eq_empty_iff s).mpr (by omega))

theorem countP_dropWhile_not (p : Char → Bool) :
    ∀ l : List Char, (l.dropWhile p).countP (fun c => !p c) = l.countP (fun c => !p c) := by
  intro l
  induction l with
  | nil => rfl
  | cons a l ih =>
    by_cases h : p a
    · rw [List.dropWhile_cons_of_pos h, ih, List.countP_cons_of_neg]
      simp [h]
    · rw [List.dropWhile_cons_of_neg h]

theorem countP_listStrip (l : List Char) :
    (listStrip l).countP (fun c => !c.isWhitespace) = l.countP (fun c => !c.isWhitespace) := by
  rw [listStrip, List.countP_reverse, countP_dropWhile_not, List.countP_reverse,
    countP_dropWhile_not]

theorem pyStrip_length_ge (s : String) :
    s.data.countP (fun c => !c.isWhitespace) ≤ (pyStrip s).length := by
  have h1 : (pyStrip s).length = (listStrip s.data).length := rfl
  rw [h1, ← countP_listStrip]
  exact List.countP_le_length _

/-- C1 (counterexample): at purchasePrice 0.47 the code returns sellingPrice
0.84, while the spec formula `round(round(0.47 × 1.16, 2) / 0.65, 2)` yields
0.85 — the code divides the *unrounded* cost, so the claim's equation for the
selling price is false. -/
theorem c1_sellingPrice_counterexample :
    (calculate_prices (PriceInput.num (47 / 100))).2 = 84 / 100
    ∧ (spec_calculate_prices (47 / 100)).2 = 85 / 100
    ∧ ((84 : ℚ) / 100) ≠ 85 / 100 := by
  have h47 : (47 : ℚ) / 100 = qc 47 := by rw [qc_eq]; norm_num
  refine ⟨?_, ?_, by norm_num⟩
  · rw [h47, show (calculate_prices (PriceInput.num (qc 47))).2 = qc 84 from by decide, qc_eq]
    norm_num
  · rw [h47, show (spec_calculate_prices (qc 47)).2 = qc 85 from by decide, qc_eq]
    norm_num

/-- C1 (amended): for every non-negative purchasePrice,
costPrice = round(purchasePrice × 1.16, 2, half-up) as claimed, but
sellingPrice = round(purchasePrice × 1.16 / 0.65, 2, half-up) — derived from
the unrounded cost, not from the rounded costPrice — and both results are
non-negative. -/
theorem c1_prices_amended (q : ℚ) (h : 0 ≤ q) :
    (calculate_prices (PriceInput.num q)).1 = roundHalfUp2 (q * (116 / 100))
    ∧ (calculate_prices (PriceInput.num q)).2 = roundHalfUp2 (q * (116 / 100) / (65 / 100))
    ∧ 0 ≤ (calculate_prices (PriceInput.num q)).1
    ∧ 0 ≤ (calculate_prices (PriceInput.num q)).2 := by
  have h1 : (calculate_prices (PriceInput.num q)).1 = roundHalfUp2 (q * (116 / 100)) := by
    show roundHalfUp2 (qMul q (qc 116)) = _
    rw [qMul_eq, qc_eq]
    norm_num
  have h2 : (calculate_prices (PriceInput.num q)).2
      = roundHalfUp2 (q * (116 / 100) / (65 / 100)) := by
    show roundHalfUp2 (qDiv (qMul q (qc 116)) (qc 65)) = _
    rw [qDiv_eq, qMul_eq, qc_eq, qc_eq]
    norm_num
  refine ⟨h1, h2, ?_, ?_⟩
  · rw [h1]
    exact roundHalfUp2_nonneg _ (by positivity)
  · rw [h2]
    exact roundHalfUp2_nonneg _ (by positivity)

/-- Witness for `c1_prices_amended` at purchasePrice 10.00 (the spec's own
example: costPrice 11.60). -/
theorem c1_prices_witness :
    (0 : ℚ) ≤ 10 ∧ (calculate_prices (PriceInput.num 10)).1 = roundHalfUp2 (10 * (116 / 100))
    ∧ 0 ≤ (calculate_prices (PriceInput.num 10)).2
    ∧ (calculate_prices (PriceInput.num 10)).1 = 58 / 5 := by
  have h := c1_prices_amended 10 (by norm_num)
  refine ⟨by norm_num, h.1, h.2.2.2, ?_⟩
  rw [show (calculate_prices (PriceInput.num 10)).1 = qc 1160 from by decide, qc_eq]
  norm_num

/-- C5 (counterexample): a negative purchase price is not zeroed — the
calculator returns (-1.16, -1.78) for purchasePrice -1.00, so the claim that
every negative input yields the zeroed PriceSet is false. -/
theorem c5_negative_counterexample :
    calculate_prices (PriceInput.num (-1)) ≠ (0, 0)
    ∧ calculate_prices (PriceInput.num (-1)) = (-(116 / 100), -(178 / 100)) := by
  have hv : calculate_prices (PriceInput.num (-1)) = (qc (-116), qc (-178)) := by decide
  constructor
  · rw [hv]
    intro hc
    have := congrArg Prod.fst hc
    rw [qc_eq] at this
    norm_num at this
  · rw [hv, qc_eq, qc_eq]
    norm_num

/-- C5 (amended): on a non-numeric input the `Decimal` constructor raises,
the exception is caught and the zeroed PriceSet is returned (never re-raised);
a *negative* purchase price, however, is processed by the ordinary formulas
and yields non-positive (not zeroed) prices. -/
theorem c5_prices_amended :
    calculate_prices PriceInput.invalid = (0, 0)
    ∧ (∀ q : ℚ, q ≤ 0 →
        (calculate_prices (PriceInput.num q)).1 ≤ 0
        ∧ (calculate_prices (PriceInput.num q)).2 ≤ 0) := by
  refine ⟨rfl, fun q h => ?_⟩
  have hcost : q * (116 / 100) ≤ 0 := by nlinarith
  have hsell : q * (116 / 100) / (65 / 100) ≤ 0 := by
    apply div_nonpos_of_nonpos_of_nonneg hcost
    norm_num
  constructor
  · show roundHalfUp2 (qMul q (qc 116)) ≤ 0
    rw [qMul_eq, qc_eq]
    exact roundHalfUp2_nonpos _ (by norm_num at hcost ⊢; linarith)
  · show roundHalfUp2 (qDiv (qMul q (qc 116)) (qc 65)) ≤ 0
    rw [qDiv_eq, qMul_eq, qc_eq, qc_eq]
    exact roundHalfUp2_nonpos _ (by norm_num at hsell ⊢; linarith)

/-- Witness for `c5_prices_amended` at purchasePrice -1.00. -/
theorem c5_prices_witness :
    ((-1 : ℚ) ≤ 0) ∧ (calculate_prices (PriceInput.num (-1))).1 ≤ 0
    ∧ (calculate_prices (PriceInput.num (-1))).2 ≤ 0 := by
  have h := c5_prices_amended.2 (-1) (by norm_num)
  exact ⟨by norm_num, h.1, h.2⟩

set_option maxRecDepth 20000

/-- C2 (counterexample): with no search capability configured, resolution of
`DS-2CD1234` does *not* take the SKU-prefix fallback path: the first query
contains "hikvision", so the simulated search returns a result, the extraction
scores 0.8, the outer priority bonus lifts it to 1.1 ≥ 0.5, and that record —
not the fallback record with fixed confidence 0.7 — is returned. -/
theorem c2_scenario_counterexample :
    ds2cdRecord.confidence_score ≠ 7 / 10
    ∧ ds2cdRecord ≠ generate_fallback_info "DS-2CD1234" := by
  constructor
  · rw [show ds2cdRecord.confidence_score = qc 110 from by decide, qc_eq]
    norm_num
  · decide

/-- C2 (amended): in the claimed scenario the resolver takes the
simulated-search extraction path, yielding name "Produit HIKVISION DS-2CD1234"
with confidence 1.1 (capped extraction score 0.8 plus the 0.3 priority bonus
added after the cap); the rest of the claim holds: category "Caméra IP",
costPrice 116.00, sellingPrice 178.46, and the management label starts with
"DS-2CD1234 - ". -/
theorem c2_scenario_amended :
    ds2cdRecord.category = "Caméra IP"
    ∧ ds2cdRecord.name = "Produit HIKVISION DS-2CD1234"
    ∧ ds2cdRecord.confidence_score = 11 / 10
    ∧ (calculate_prices (PriceInput.num 100)).1 = 116
    ∧ (calculate_prices (PriceInput.num 100)).2 = 17846 / 100
    ∧ strStarts (generate_descriptions "DS-2CD1234" ds2cdRecord
        (calculate_prices (PriceInput.num 100))).management_label "DS-2CD1234 - " = true := by
  refine ⟨by decide, by decide, ?_, ?_, ?_, by decide⟩
  · rw [show ds2cdRecord.confidence_score = qc 110 from by decide, qc_eq]
    norm_num
  · rw [show (calculate_prices (PriceInput.num 100)).1 = qc 11600 from by decide, qc_eq]
    norm_num
  · rw [show (calculate_prices (PriceInput.num 100)).2 = qc 17846 from by decide, qc_eq]
    norm_num

/-- C4 (counterexample): the record the resolver stores for `DS-2CD1234`
(no tools configured) carries confidence 1.1 > 1, because the 0.3 priority
bonus of the query loop is added *after* the extraction's `min(score, 1.0)`
cap — so not every stored confidence is in [0, 1]. -/
theorem c4_confidence_counterexample :
    1 < ds2cdRecord.confidence_score := by
  rw [show ds2cdRecord.confidence_score = qc 110 from by decide, qc_eq]
  norm_num

/-- C8 (counterexample): with an injected search capability whose result
title is "-X", the title-cleaning regex deletes the whole title (the SKU "X"
does occur in it, so the cleaning branch is taken), the candidate still scores
0.8 ≥ 0.5, and the resolver returns a record whose name is the empty string. -/
theorem c8_empty_name_counterexample :
    (search_product_info (some emptyTitleTool) detNoBrowser "X").name = "" := by
  decide

/-- C3 (counterexample): a batch whose single row (SKU "cam") is processed
but rejected (quality 88 < 95) produces *no* output artifact at all — the
source writes the spreadsheet only under `if validated_results:` —
contradicting the claim that a header-only artifact still exists. -/
theorem c3_empty_artifact_counterexample :
    (process_excel_file none detNoBrowser camRows).artifact = none
    ∧ (process_excel_file none detNoBrowser camRows).processed = 1
    ∧ (pipelineResults none detNoBrowser camRows).length = 1 := by
  refine ⟨by decide, by decide, by decide⟩

/-- C6 (counterexample): a row whose SKU cell is the whitespace string " "
(empty after trimming) is *not* skipped — it is fully processed (with SKU ""),
increments processedCount and produces a RowResult; likewise a row with the
negative purchase price -5 is processed, not skipped. -/
theorem c6_skip_counterexample :
    (process_row none detNoBrowser (" ", 10)).sku = ""
    ∧ (process_excel_file none detNoBrowser
        [{ sku := some " ", price := PriceCell.num 10 }]).processed = 1
    ∧ (pipelineResults none detNoBrowser
        [{ sku := some " ", price := PriceCell.num 10 }]).length = 1
    ∧ (process_excel_file none detNoBrowser
        [{ sku := some "A", price := PriceCell.num (-5) }]).processed = 1 := by
  refine ⟨by decide, by decide, by decide, by decide⟩



/-- C10: for every SKU, ProductRecord and price set, the generated
ecommerceDescription is longer than 400 characters (the fixed usage-scenario
bullets and trust/support boilerplate contribute 731 non-whitespace characters
on their own, and stripping removes only whitespace), so the scorer's
e-commerce length band always contributes its maximum 15 points. -/
theorem c10_ecommerce_length (sku : String) (info : ProductInfo) (prices : ℚ × ℚ) :
    400 < (generate_descriptions sku info prices).ecommerce_description.length
    ∧ ecomPoints (generate_descriptions sku info prices).ecommerce_description = 15 := by
  have hlen : 400 < (generate_descriptions sku info prices).ecommerce_description.length := by
    show 400 < (pyStrip ("\n" ++ info.description ++ "\n\nSpécifications techniques:\n"
      ++ info.specifications ++ "\n\nAccessoires inclus:\n"
      ++ String.intercalate ", " info.accessories ++ ecomTail)).length
    have hc : 400 < ecomTail.data.countP (fun c => !c.isWhitespace) := by decide
    have hmono : ecomTail.data.countP (fun c => !c.isWhitespace)
        ≤ ("\n" ++ info.description ++ "\n\nSpécifications techniques:\n"
          ++ info.specifications ++ "\n\nAccessoires inclus:\n"
          ++ String.intercalate ", " info.accessories ++ ecomTail).data.countP
            (fun c => !c.isWhitespace) := by
      simp only [String.data_append, List.countP_append]
      omega
    have hstrip := pyStrip_length_ge ("\n" ++ info.description
      ++ "\n\nSpécifications techniques:\n" ++ info.specifications
      ++ "\n\nAccessoires inclus:\n" ++ String.intercalate ", " info.accessories ++ ecomTail)
    omega
  exact ⟨hlen, by rw [ecomPoints, if_pos hlen]⟩

theorem processResult_pres {P : ProductInfo × ℚ → Prop}
    (det : String → String → Option ProductInfo) (sku : String)
    (b : ProductInfo × ℚ) (r : SearchResult)
    (hb : P b)
    (hc : P (bonusCand sku r, (bonusCand sku r).confidence_score))
    (hdet : ∀ i, det r.url sku = some i → P (i, i.confidence_score)) :
    P (processResult det sku b r) := by
  simp only [processResult]
  set b1 := if b.2 < (bonusCand sku r).confidence_score
      then (bonusCand sku r, (bonusCand sku r).confidence_score) else b with hb1def
  have hb1 : P b1 := by
    rw [hb1def]
    split
    · exact hc
    · exact hb
  split
  · split
    next d hd =>
      split
      · exact hdet d hd
      · exact hb1
    next => exact hb1
  · exact hb1

theorem foldl_processResult_pres {P : ProductInfo × ℚ → Prop}
    (det : String → String → Option ProductInfo) (sku : String) :
    ∀ (rs : List SearchResult) (b : ProductInfo × ℚ), P b →
      (∀ r ∈ rs, P (bonusCand sku r, (bonusCand sku r).confidence_score)
        ∧ ∀ i, det r.url sku = some i → P (i, i.confidence_score)) →
      P (rs.foldl (processResult det sku) b) := by
  intro rs
  induction rs with
  | nil => intro b hb _; exact hb
  | cons r rs ih =>
    intro b hb hall
    rw [List.foldl_cons]
    exact ih _ (processResult_pres det sku b r hb (hall r (by simp)).1 (hall r (by simp)).2)
      (fun r' hr' => hall r' (by simp [hr']))

theorem processQueries_pres {P : ProductInfo × ℚ → Prop}
    (st : Option (String → Except Unit (List SearchResult)))
    (det : String → String → Option ProductInfo) (sku : String)
    (hall : ∀ q results, runSearch st q = .ok results → ∀ r ∈ results.take 3,
        P (bonusCand sku r, (bonusCand sku r).confidence_score)
        ∧ ∀ i, det r.url sku = some i → P (i, i.confidence_score)) :
    ∀ (qs : List String) (b : ProductInfo × ℚ), P b →
      P (processQueries st det sku qs b) := by
  intro qs
  induction qs with
  | nil => intro b hb; exact hb
  | cons q qs ih =>
    intro b hb
    rw [processQueries]
    have hb' : P (match runSearch st q with
        | .error _ => b
        | .ok results => (results.take 3).foldl (processResult det sku) b) := by
      cases hq : runSearch st q with
      | error e => exact hb
      | ok results =>
        exact foldl_processResult_pres det sku _ b hb (fun r hr => hall q results hq r hr)
    split
    · exact hb'
    · exact ih _ hb'

theorem extract_confidence_mem (sku title snippet url : String) :
    0 ≤ (extract_info_from_snippet sku title snippet url).confidence_score
    ∧ (extract_info_from_snippet sku title snippet url).confidence_score ≤ 1 := by
  simp only [extract_info_from_snippet]
  have h100 : qc 100 = 1 := by rw [qc_eq]; norm_num
  rw [h100]
  simp only [qAdd_eq]
  constructor
  · apply le_min _ (by norm_num)
    split_ifs <;> norm_num [qc_eq]
  · exact min_le_right _ _

theorem priorityBonus_mem (url : String) :
    priorityBonus url = 0 ∨ priorityBonus url = 3 / 10 := by
  rw [priorityBonus]
  split_ifs
  · right
    rw [qc_eq]
    norm_num
  · left
    rfl

theorem bonusCand_confidence (sku : String) (r : SearchResult) :
    (bonusCand sku r).confidence_score
      = qAdd (extract_info_from_snippet sku r.title r.snippet r.url).confidence_score
          (priorityBonus r.url) := rfl

theorem bonusCand_confidence_mem (sku : String) (r : SearchResult) :
    0 ≤ (bonusCand sku r).confidence_score
    ∧ (bonusCand sku r).confidence_score ≤ 13 / 10 := by
  rw [bonusCand_confidence, qAdd_eq]
  have he := extract_confidence_mem sku r.title r.snippet r.url
  rcases priorityBonus_mem r.url with h | h <;> rw [h] <;> constructor <;> linarith [he.1, he.2]

theorem get_detailed_confidence (bt : Option (String → String → Except Unit String))
    (oracle : String → String → RegexOracle) (url sku : String) (i : ProductInfo)
    (h : get_detailed_info_from_url bt oracle url sku = some i) :
    i.confidence_score = qc 95 := by
  unfold get_detailed_info_from_url at h
  cases bt with
  | none => exact absurd h (by simp)
  | some b =>
    dsimp only at h
    cases hbt : b url ("Informations techniques et spécifications du produit " ++ sku) with
    | error e =>
      rw [hbt] at h
      exact absurd h (by simp)
    | ok page =>
      rw [hbt] at h
      dsimp only at h
      by_cases hp : page = ""
      · rw [if_pos hp] at h
        exact absurd h (by simp)
      · rw [if_neg hp] at h
        have h2 := Option.some_injective _ h
        rw [← h2]

theorem get_detailed_name_ne (bt : Option (String → String → Except Unit String))
    (oracle : String → String → RegexOracle) (url sku : String) (i : ProductInfo)
    (h : get_detailed_info_from_url bt oracle url sku = some i) :
    i.name ≠ "" := by
  unfold get_detailed_info_from_url at h
  cases bt with
  | none => exact absurd h (by simp)
  | some b =>
    dsimp only at h
    cases hbt : b url ("Informations techniques et spécifications du produit " ++ sku) with
    | error e =>
      rw [hbt] at h
      exact absurd h (by simp)
    | ok page =>
      rw [hbt] at h
      dsimp only at h
      by_cases hp : page = ""
      · rw [if_pos hp] at h
        exact absurd h (by simp)
      · rw [if_neg hp] at h
        have h2 := Option.some_injective _ h
        rw [← h2]
        show (if (oracle page sku).pageName = "" then "Produit HIKVISION " ++ sku
          else (oracle page sku).pageName) ≠ ""
        split_ifs with hn
        · exact append_ne_empty_left _ _ (by decide)
        · exact hn

theorem fallback_confidence (sku : String) :
    (generate_fallback_info sku).confidence_score = qc 70 := by
  rw [generate_fallback_info]
  split_ifs <;> rfl

theorem fallback_name_ne (sku : String) : (generate_fallback_info sku).name ≠ "" := by
  rw [generate_fallback_info]
  split_ifs <;> exact append_ne_empty_left _ _ (by decide)

/-- C4 (amended): the extracted-candidate scoring is indeed capped at 1.0 —
every snippet extraction has confidence in [0,1] — but the query loop then
adds the 0.3 priority bonus *after* that cap, so a stored record's confidence
is only bounded by [0, 1.3] (the detailed-fetch path contributes the fixed
0.95 and the fallback 0.7, both inside that range); the DS-2CD1234 record
(see the counterexample) reaches 1.1 > 1. -/
theorem c4_confidence_amended :
    (∀ sku title snippet url : String,
        0 ≤ (extract_info_from_snippet sku title snippet url).confidence_score
        ∧ (extract_info_from_snippet sku title snippet url).confidence_score ≤ 1)
    ∧ (∀ (st : Option (String → Except Unit (List SearchResult)))
        (bt : Option (String → String → Except Unit String))
        (oracle : String → String → RegexOracle) (sku : String),
        0 ≤ (search_product_info st (get_detailed_info_from_url bt oracle) sku).confidence_score
        ∧ (search_product_info st
            (get_detailed_info_from_url bt oracle) sku).confidence_score ≤ 13 / 10) := by
  refine ⟨extract_confidence_mem, ?_⟩
  intro st bt oracle sku
  have hq := processQueries_pres
    (P := fun b : ProductInfo × ℚ => b.2 = b.1.confidence_score ∧ 0 ≤ b.2 ∧ b.2 ≤ 13 / 10)
    st (get_detailed_info_from_url bt oracle) sku
    (fun q results _ r _ =>
      ⟨⟨rfl, (bonusCand_confidence_mem sku r).1, (bonusCand_confidence_mem sku r).2⟩,
       fun i hi => by
        have hci := get_detailed_confidence bt oracle r.url sku i hi
        refine ⟨rfl, ?_, ?_⟩ <;> rw [hci, qc_eq] <;> norm_num⟩)
    (search_queries sku) ({ sku := sku }, 0) ⟨rfl, le_refl 0, by norm_num⟩
  rw [search_product_info]
  split_ifs with h
  · rw [fallback_confidence, qc_eq]
    norm_num
  · obtain ⟨he, h0, h13⟩ := hq
    rw [← he]
    exact ⟨h0, h13⟩

theorem simulate_mem (q : String) (r : SearchResult) (h : r ∈ simulate_search q) :
    r = hikResult ∨ r = ubiResult := by
  rw [simulate_search] at h
  split_ifs at h <;> simp at h <;> tauto

theorem bonusCand_name (sku : String) (r : SearchResult) :
    (bonusCand sku r).name = (extract_info_from_snippet sku r.title r.snippet r.url).name := rfl

theorem extract_name_eq (sku title snippet url : String) :
    (extract_info_from_snippet sku title snippet url).name
      = (if strContains (pyLower title) (pyLower sku) then cleanTitleName title
         else "Produit HIKVISION " ++ sku) := rfl

theorem extract_name_ne_simulated (sku : String) (r : SearchResult)
    (hr : r = hikResult ∨ r = ubiResult) :
    (extract_info_from_snippet sku r.title r.snippet r.url).name ≠ "" := by
  rw [extract_name_eq]
  split_ifs with h
  · rcases hr with h1 | h1 <;> subst h1
    · rw [show cleanTitleName hikResult.title = "IP Cameras" from by decide]
      decide
    · rw [show cleanTitleName ubiResult.title = "Caméras IP professionnelles" from by decide]
      decide
  · exact append_ne_empty_left _ _ (by decide)

theorem processQueries_error_tool (det : String → String → Option ProductInfo) (sku : String) :
    ∀ (qs : List String) (b : ProductInfo × ℚ), ¬(qc 80 < b.2) →
      processQueries (some (fun _ => Except.error ())) det sku qs b = b := by
  intro qs
  induction qs with
  | nil => intro b _; rfl
  | cons q qs ih =>
    intro b hb
    rw [processQueries]
    dsimp only [runSearch]
    rw [if_neg hb]
    exact ih b hb

/-- C8 (amended): resolution is total.  The SKU-prefix fallback always
carries a non-empty name; with *no* search capability configured (simulated
search) the returned record's name is non-empty for every SKU; and when the
injected search capability raises on every query, resolution returns exactly
the fallback record instead of propagating the exception.  With an injected
search capability, however, a crafted result title can produce an empty name
(see the counterexample). -/
theorem c8_resolver_amended :
    (∀ sku : String, (generate_fallback_info sku).name ≠ "")
    ∧ (∀ (bt : Option (String → String → Except Unit String))
        (oracle : String → String → RegexOracle) (sku : String),
        (search_product_info none (get_detailed_info_from_url bt oracle) sku).name ≠ "")
    ∧ (∀ (det : String → String → Option ProductInfo) (sku : String),
        search_product_info (some (fun _ => Except.error ())) det sku
          = generate_fallback_info sku) := by
  refine ⟨fallback_name_ne, ?_, ?_⟩
  · intro bt oracle sku
    have hq := processQueries_pres
      (P := fun b : ProductInfo × ℚ => b.1.name ≠ "" ∨ b.2 < qc 50)
      none (get_detailed_info_from_url bt oracle) sku
      (fun q results hok r hr => by
        have hres : results = simulate_search q := by
          rw [runSearch] at hok
          cases hok
          rfl
        have hmem : r ∈ simulate_search q := by
          rw [← hres]
          exact List.mem_of_mem_take hr
        constructor
        · left
          rw [bonusCand_name]
          exact extract_name_ne_simulated sku r (simulate_mem q r hmem)
        · intro i hi
          left
          exact get_detailed_name_ne bt oracle r.url sku i hi)
      (search_queries sku) ({ sku := sku }, 0)
      (Or.inr (by rw [qc_eq]; norm_num))
    rw [search_product_info]
    split_ifs with h
    · exact fallback_name_ne sku
    · rcases hq with hn | hlt
      · exact hn
      · exact absurd hlt h
  · intro det sku
    rw [search_product_info]
    rw [processQueries_error_tool det sku _ _ (by rw [qc_eq]; norm_num)]
    rw [if_pos (by rw [qc_eq]; norm_num)]

theorem namePoints_nonneg (sku name : String) : 0 ≤ namePoints sku name := by
  rw [namePoints]
  split_ifs <;> norm_num

theorem descPoints_nonneg (d : String) : 0 ≤ descPoints d := by
  rw [descPoints]
  split_ifs <;> norm_num

theorem specPoints_nonneg (s : String) : 0 ≤ specPoints s := by
  rw [specPoints]
  split_ifs <;> norm_num

theorem accPoints_nonneg (n : ℕ) : 0 ≤ accPoints n := by
  rw [accPoints]
  split_ifs <;> norm_num

theorem labelPoints_nonneg (l : String) : 0 ≤ labelPoints l := by
  rw [labelPoints]
  split_ifs <;> norm_num

theorem ecomPoints_nonneg (d : String) : 0 ≤ ecomPoints d := by
  rw [ecomPoints]
  split_ifs <;> norm_num

theorem evaluate_quality_eq (sku : String) (info : ProductInfo) (descs : Descriptions) :
    evaluate_quality sku info descs
      = min (namePoints sku info.name + descPoints info.description
          + specPoints info.specifications + accPoints info.accessories.length
          + labelPoints descs.management_label + ecomPoints descs.ecommerce_description
          + info.confidence_score * 10) 100 := by
  rw [evaluate_quality]
  simp only [qAdd_eq, qMul_eq]

theorem process_row_statut (st : Option (String → Except Unit (List SearchResult)))
    (det : String → String → Option ProductInfo) (p : String × ℚ) :
    (process_row st det p).statut
      = if validates (process_row st det p).quality_score then "Validé" else "Rejeté" := rfl

theorem validates_iff (q : ℚ) : validates q = true ↔ 95 ≤ q := by
  rw [validates]
  exact decide_eq_true_iff

/-- C7: for every well-formed ProductRecord (confidence in [0,1]) and
description set, the quality score lies in [0,100]; a pipeline row's Statut is
"Validé" exactly when its score is at least 95.0; and the gate is exact at the
boundary: 95.0 passes, 94.99 fails. -/
theorem c7_quality_gate :
    (∀ (sku : String) (info : ProductInfo) (descs : Descriptions),
        0 ≤ info.confidence_score → info.confidence_score ≤ 1 →
        0 ≤ evaluate_quality sku info descs ∧ evaluate_quality sku info descs ≤ 100)
    ∧ (∀ (st : Option (String → Except Unit (List SearchResult)))
        (det : String → String → Option ProductInfo) (p : String × ℚ),
        (process_row st det p).statut = "Validé" ↔ 95 ≤ (process_row st det p).quality_score)
    ∧ validates 95 = true ∧ validates (9499 / 100) = false := by
  refine ⟨?_, ?_, by decide, ?_⟩
  · intro sku info descs h0 _
    rw [evaluate_quality_eq]
    constructor
    · apply le_min _ (by norm_num)
      have := namePoints_nonneg sku info.name
      have := descPoints_nonneg info.description
      have := specPoints_nonneg info.specifications
      have := accPoints_nonneg info.accessories.length
      have := labelPoints_nonneg descs.management_label
      have := ecomPoints_nonneg descs.ecommerce_description
      nlinarith
    · exact min_le_right _ _
  · intro st det p
    rw [process_row_statut]
    by_cases h : validates (process_row st det p).quality_score
    · rw [if_pos h]
      simp only [true_iff]
      exact (validates_iff _).mp h
    · rw [if_neg h]
      constructor
      · intro hc
        exact absurd hc (by decide)
      · intro hq
        exact absurd ((validates_iff _).mpr hq) h
  · rw [show (9499 : ℚ) / 100 = qc 9499 from by rw [qc_eq]; norm_num]
    decide

/-- Witness for `c7_quality_gate` at the fallback record for `DS-2CD1234`
(confidence 0.7 ∈ [0,1]). -/
theorem c7_quality_gate_witness :
    0 ≤ evaluate_quality "DS-2CD1234" (generate_fallback_info "DS-2CD1234")
      (generate_descriptions "DS-2CD1234" (generate_fallback_info "DS-2CD1234") (116, 17846 / 100))
    ∧ evaluate_quality "DS-2CD1234" (generate_fallback_info "DS-2CD1234")
      (generate_descriptions "DS-2CD1234" (generate_fallback_info "DS-2CD1234") (116, 17846 / 100)) ≤ 100 := by
  have hc : 0 ≤ (generate_fallback_info "DS-2CD1234").confidence_score
      ∧ (generate_fallback_info "DS-2CD1234").confidence_score ≤ 1 := by
    rw [show (generate_fallback_info "DS-2CD1234").confidence_score = qc 70 from by decide, qc_eq]
    norm_num
  exact c7_quality_gate.1 _ _ _ hc.1 hc.2

theorem foldl_batchStep_eq (st : Option (String → Except Unit (List SearchResult)))
    (det : String → String → Option ProductInfo) :
    ∀ (ps : List (String × ℚ)) (l : List RowResult) (np nv : ℕ),
      ps.foldl (batchStep st det) (l, np, nv)
        = (l ++ ps.map (process_row st det), np + ps.length,
           nv + ps.countP (fun p => validates (process_row st det p).quality_score)) := by
  intro ps
  induction ps with
  | nil => intro l np nv; simp
  | cons p ps ih =>
    intro l np nv
    rw [List.foldl_cons]
    show ps.foldl (batchStep st det)
        (l ++ [process_row st det p], np + 1,
         nv + (if validates (process_row st det p).quality_score then 1 else 0)) = _
    rw [ih, List.countP_cons]
    simp only [Prod.mk.injEq]
    refine ⟨by simp, by simp [List.length_cons]; omega, by split_ifs <;> omega⟩

theorem process_excel_file_eq (st : Option (String → Except Unit (List SearchResult)))
    (det : String → String → Option ProductInfo) (rows : List RawRow) :
    process_excel_file st det rows =
      { success := true
        artifact :=
          if ((pipelineResults st det rows).filter (fun r => r.statut = "Validé")).isEmpty
          then none
          else some ((pipelineResults st det rows).filter (fun r => r.statut = "Validé"))
        processed := (rows.filterMap parseRow).length
        valid := (rows.filterMap parseRow).countP
          (fun p => validates (process_row st det p).quality_score)
        validation_rate := qMul (Rat.divInt
          ((rows.filterMap parseRow).countP
            (fun p => validates (process_row st det p).quality_score) : ℤ)
          ((max 1 (rows.filterMap parseRow).length : ℕ) : ℤ)) 100 } := by
  rw [process_excel_file, foldl_batchStep_eq]
  simp [pipelineResults]

/-- C9: every completed batch outcome satisfies validatedCount ≤
processedCount, its validationRate is 0 when processedCount = 0, and equals
validatedCount/processedCount×100 otherwise. -/
theorem c9_batch_invariants (st : Option (String → Except Unit (List SearchResult)))
    (det : String → String → Option ProductInfo) (rows : List RawRow) :
    (process_excel_file st det rows).valid ≤ (process_excel_file st det rows).processed
    ∧ ((process_excel_file st det rows).processed = 0 →
        (process_excel_file st det rows).validation_rate = 0)
    ∧ ((process_excel_file st det rows).processed ≠ 0 →
        (process_excel_file st det rows).validation_rate
          = ((process_excel_file st det rows).valid : ℚ)
            / ((process_excel_file st det rows).processed : ℚ) * 100) := by
  rw [process_excel_file_eq]
  dsimp only
  refine ⟨List.countP_le_length _, ?_, ?_⟩
  · intro h0
    have hv : (rows.filterMap parseRow).countP
        (fun p => validates (process_row st det p).quality_score) = 0 := by
      have := List.countP_le_length
        (fun p => validates (process_row st det p).quality_score) (l := rows.filterMap parseRow)
      omega
    simp only [hv, h0]
    rw [qMul_eq]
    simp [Rat.divInt_eq_div]
  · intro hne
    have hmax : max 1 (rows.filterMap parseRow).length = (rows.filterMap parseRow).length :=
      Nat.max_eq_right (Nat.one_le_iff_ne_zero.mpr hne)
    simp only [hmax]
    rw [qMul_eq, Rat.divInt_eq_div]
    push_cast
    ring

/-- Witness for `c9_batch_invariants`: the empty batch (processedCount 0,
rate 0) and the one-row `cam` batch (processedCount 1 ≠ 0). -/
theorem c9_batch_invariants_witness :
    (process_excel_file none detNoBrowser []).validation_rate = 0
    ∧ (process_excel_file none detNoBrowser camRows).validation_rate
      = ((process_excel_file none detNoBrowser camRows).valid : ℚ)
        / ((process_excel_file none detNoBrowser camRows).processed : ℚ) * 100 := by
  exact ⟨(c9_batch_invariants none detNoBrowser []).2.1 (by decide),
         (c9_batch_invariants none detNoBrowser camRows).2.2 (by decide)⟩

/-- C6 (amended): the rows dropped before the loop are exactly those whose
SKU cell is missing or whose price cell holds no numeric value (`dropna` +
`to_numeric(errors='coerce')` + `dropna`); dropping such a row leaves the
batch outcome of the remaining rows unchanged (the batch continues); rows with
whitespace-only SKUs or negative numeric prices are not among them (see the
counterexample). -/
theorem c6_row_skip_amended :
    (∀ (st : Option (String → Except Unit (List SearchResult)))
        (det : String → String → Option ProductInfo) (rows : List RawRow),
        (process_excel_file st det rows).processed = (rows.filterMap parseRow).length)
    ∧ (∀ (st : Option (String → Except Unit (List SearchResult)))
        (det : String → String → Option ProductInfo) (bad : RawRow) (rows : List RawRow),
        parseRow bad = none →
        process_excel_file st det (bad :: rows) = process_excel_file st det rows)
    ∧ (∀ r : RawRow, parseRow r = none ↔ (r.sku = none ∨ ∀ q, r.price ≠ PriceCell.num q)) := by
  refine ⟨?_, ?_, ?_⟩
  · intro st det rows
    rw [process_excel_file_eq]
  · intro st det bad rows h
    have hp : (bad :: rows).filterMap parseRow = rows.filterMap parseRow := by
      rw [List.filterMap_cons_none h]
    simp only [process_excel_file, hp]
  · intro r
    obtain ⟨sku, price⟩ := r
    cases sku <;> cases price <;> simp [parseRow]

/-- Witness for `c6_row_skip_amended`: a missing-SKU row is dropped and the
batch equals the batch without it. -/
theorem c6_row_skip_amended_witness :
    process_excel_file none detNoBrowser [{ sku := none, price := PriceCell.num 10 }]
      = process_excel_file none detNoBrowser []
    ∧ parseRow { sku := none, price := PriceCell.num 10 } = none := by
  exact ⟨c6_row_skip_amended.2.1 none detNoBrowser _ [] (by decide), by decide⟩

/-- C3 (amended): when the output artifact exists it contains exactly the
rows with Statut "Validé", in the relative order they were processed (a
sublist of the per-row results), and never a rejected row; but when zero rows
validate, no artifact is written at all (`artifact = none`) rather than a
header-only file. -/
theorem c3_artifact_amended (st : Option (String → Except Unit (List SearchResult)))
    (det : String → String → Option ProductInfo) (rows : List RawRow) :
    ((process_excel_file st det rows).artifact = none
      ↔ (pipelineResults st det rows).filter (fun r => r.statut = "Validé") = [])
    ∧ ∀ l, (process_excel_file st det rows).artifact = some l →
        l = (pipelineResults st det rows).filter (fun r => r.statut = "Validé")
        ∧ l.Sublist (pipelineResults st det rows)
        ∧ ∀ r ∈ l, r.statut = "Validé" := by
  rw [process_excel_file_eq]
  dsimp only
  by_cases h : ((pipelineResults st det rows).filter (fun r => r.statut = "Validé")).isEmpty
  · rw [if_pos h]
    refine ⟨by simp [List.isEmpty_iff.mp h], ?_⟩
    intro l hl
    exact absurd hl (by simp)
  · rw [if_neg h]
    constructor
    · simp only [List.isEmpty_iff] at h
      simp [h]
    · intro l hl
      have hl2 : l = (pipelineResults st det rows).filter (fun r => r.statut = "Validé") :=
        Option.some_injective _ hl.symm
      refine ⟨hl2, ?_, ?_⟩
      · rw [hl2]
        exact List.filter_sublist _
      · intro r hr
        rw [hl2] at hr
        have := List.mem_filter.mp hr
        simpa using this.2

/-- Witness for `c3_artifact_amended` on the validated one-row `DS-2CD1234`
batch, discharging the `artifact = some l` hypothesis by evaluation. -/
theorem c3_artifact_amended_witness :
    ((pipelineResults none detNoBrowser dsRows).filter
      (fun r => r.statut = "Validé")).Sublist (pipelineResults none detNoBrowser dsRows)
    ∧ ∀ r ∈ (pipelineResults none detNoBrowser dsRows).filter (fun r => r.statut = "Validé"),
        r.statut = "Validé" := by
  have h := (c3_artifact_amended none detNoBrowser dsRows).2
    ((pipelineResults none detNoBrowser dsRows).filter (fun r => r.statut = "Validé"))
    (by decide)
  exact ⟨h.2.1, h.2.2⟩
